import Mathlib

/-!
Shallow embedding of the Titanic dashboard (src/main.py).

The program prepares a passenger dataset once (`load_and_prepare_data`) and
then serves one of ten insights through the callback `update_visualization`,
which dispatches on a string key and returns a triple
(chart, description, stats).  Here the dataset is a list of rows over the
fields the handler reads (age, fare, sex, class, survived, plus the two
derived bucket columns), numeric cells are exact rationals (`Option ℚ` for
nullable columns), and IEEE-float special cases that the code can actually
produce (division by zero, mean of an empty group) are modelled by the
four-constructor type `PyFloat`.  Python exceptions (KeyError on a missing
index label, ZeroDivisionError on integer division, ValueError on idxmax of
an empty series, UnboundLocalError when no branch of the if/elif chain
matches) are modelled by `Except Err`.
-/

/-- The `sex` column (object dtype with two observed values). -/
inductive Sex
  | male
  | female
deriving DecidableEq, Repr

/-- The `class` column, a categorical with declared order First, Second, Third. -/
inductive PClass
  | First
  | Second
  | Third
deriving DecidableEq, Repr

/-- One row of the prepared dataframe, restricted to the columns that
`update_visualization` reads.  `age` and `fare` are nullable; the two
derived bucket columns hold `none` for NaN (missing input or out-of-bins). -/
structure Row where
  age : Option ℚ
  fare : Option ℚ
  sex : Sex
  pclass : PClass
  survived : Bool
  age_grouped : Option String
  fare_grouped : Option String
deriving DecidableEq, Repr

/-- Bin boundaries for `pd.cut` on `age` (src/main.py line 22). -/
def ageBins : List ℚ := [0, 12, 20, 40, 60, 80]

/-- Labels for the age buckets (src/main.py line 23). -/
def ageLabels : List String := ["Child", "Teen", "Adult", "Middle-Aged", "Senior"]

/-- Bin boundaries for `pd.cut` on `fare` (src/main.py line 26). -/
def fareBins : List ℚ := [0, 10, 30, 50, 100, 200, 500]

/-- Labels for the fare buckets (src/main.py line 27). -/
def fareLabels : List String :=
  ["Very Low", "Low", "Medium", "High", "Very High", "Extremely High"]

/-- `pd.cut` interval search with the default `right=True` and without
`include_lowest`: value `v` gets label `i` iff `bins[i] < v ≤ bins[i+1]`;
otherwise the result is the missing marker (NaN, here `none`). -/
def cutFind (v : ℚ) : List ℚ → List String → Option String
  | b0 :: b1 :: bs, l :: ls =>
      if b0 < v ∧ v ≤ b1 then some l else cutFind v (b1 :: bs) ls
  | _, _ => none

/-- `pd.cut` on one nullable cell: NaN input stays NaN. -/
def pdCut (v : Option ℚ) (bins : List ℚ) (labels : List String) : Option String :=
  v.bind fun x => cutFind x bins labels

/-- Mean of the non-missing values of a column; `none` when every value is
missing (pandas `Series.mean()` of an all-NaN column is NaN, and
`fillna(NaN)` is then a no-op). -/
def colMean (xs : List (Option ℚ)) : Option ℚ :=
  let v := xs.filterMap id
  if v.length = 0 then none else some (v.sum / v.length)

/-- `Series.fillna(m)` on one cell. -/
def fillna (m v : Option ℚ) : Option ℚ :=
  match v with
  | some x => some x
  | none => m

/-- One row of the preparation pass: impute `age` with the column mean `m`,
then (re)derive both bucket columns (src/main.py lines 17-27).  `fare` is
never imputed by the code. -/
def deriveRow (m : Option ℚ) (r : Row) : Row :=
  let a := fillna m r.age
  { r with
      age := a
      age_grouped := pdCut a ageBins ageLabels
      fare_grouped := pdCut r.fare fareBins fareLabels }

/-- The preparation pass of `load_and_prepare_data` (src/main.py lines 11-29)
on the rows supplied by the dataset provider: fill missing ages with the
mean age, then derive `age_grouped` and `fare_grouped` via `pd.cut`. -/
def load_and_prepare_data (ds : List Row) : List Row :=
  ds.map (deriveRow (colMean (ds.map (·.age))))

/-- The values a Python/numpy float expression of this program can take:
an exact finite value (float rounding is abstracted away), the two
infinities produced by dividing a nonzero value by zero, and NaN (mean of
an empty group, 0/0, or arithmetic on NaN). -/
inductive PyFloat
  | fin : ℚ → PyFloat
  | inf : PyFloat
  | ninf : PyFloat
  | nan : PyFloat
deriving DecidableEq, Repr

/-- IEEE division as numpy performs it on the values above: a nonzero
finite numerator over zero gives a signed infinity, 0/0 gives NaN, NaN
propagates. -/
def PyFloat.div : PyFloat → PyFloat → PyFloat
  | nan, _ => nan
  | _, nan => nan
  | fin a, fin b =>
      if b = 0 then (if a = 0 then nan else if 0 < a then inf else ninf)
      else fin (a / b)
  | fin _, inf => fin 0
  | fin _, ninf => fin 0
  | inf, fin b => if 0 ≤ b then inf else ninf
  | ninf, fin b => if 0 ≤ b then ninf else inf
  | inf, inf => nan
  | inf, ninf => nan
  | ninf, inf => nan
  | ninf, ninf => nan

/-- IEEE subtraction restricted to the cases above; NaN propagates. -/
def PyFloat.sub : PyFloat → PyFloat → PyFloat
  | nan, _ => nan
  | _, nan => nan
  | fin a, fin b => fin (a - b)
  | fin _, inf => ninf
  | fin _, ninf => inf
  | inf, fin _ => inf
  | ninf, fin _ => ninf
  | inf, inf => nan
  | inf, ninf => inf
  | ninf, inf => ninf
  | ninf, ninf => nan

/-- `Series.mean()` with the default `skipna=True`: NaN on an empty (or
all-NaN) series, otherwise the exact arithmetic mean. -/
def seriesMean (xs : List (Option ℚ)) : PyFloat :=
  let v := xs.filterMap id
  if v.length = 0 then .nan else .fin (v.sum / v.length)

/-- `Series.max()` with `skipna=True`. -/
def seriesMax (xs : List (Option ℚ)) : PyFloat :=
  match xs.filterMap id with
  | [] => .nan
  | y :: ys => .fin (ys.foldl max y)

/-- `Series.min()` with `skipna=True`. -/
def seriesMin (xs : List (Option ℚ)) : PyFloat :=
  match xs.filterMap id with
  | [] => .nan
  | y :: ys => .fin (ys.foldl min y)

/-- `Series.median()` with `skipna=True`: NaN on an empty series, the middle
element for odd length, the average of the two middle elements for even. -/
def seriesMedian (xs : List (Option ℚ)) : PyFloat :=
  let s := List.insertionSort (· ≤ ·) (xs.filterMap id)
  if s.length = 0 then .nan
  else if s.length % 2 = 1 then .fin (s.getD (s.length / 2) 0)
  else .fin ((s.getD (s.length / 2 - 1) 0 + s.getD (s.length / 2) 0) / 2)

/-- Mean of the boolean `survived` column over a set of rows, as the float
the code gets from `['survived'].mean()`: NaN when the group is empty. -/
def survivedMean (rs : List Row) : PyFloat :=
  if rs.length = 0 then .nan
  else .fin (((rs.filter (·.survived)).length : ℚ) / rs.length)

/-- Number of rows with `survived == 1`. -/
def survCount (ds : List Row) : ℕ := (ds.filter (·.survived)).length

/-- Number of rows with `survived == 0`. -/
def deathCount (ds : List Row) : ℕ := (ds.filter (fun r => ! r.survived)).length

/-- Pandas boolean mask `col < c` on a nullable column: NaN compares false. -/
def cellLt (v : Option ℚ) (c : ℚ) : Bool :=
  match v with
  | some x => decide (x < c)
  | none => false

/-- Pandas boolean mask `col ≥ c` on a nullable column: NaN compares false. -/
def cellGe (v : Option ℚ) (c : ℚ) : Bool :=
  match v with
  | some x => decide (c ≤ x)
  | none => false

/-- Mask `col > m` against a possibly-NaN float threshold (src/main.py line
238 compares fares with the median, which is NaN on an empty column):
any comparison with NaN is false. -/
def cellGtPF (v : Option ℚ) (m : PyFloat) : Bool :=
  match v, m with
  | some x, .fin q => decide (q < x)
  | _, _ => false

/-- Mask `col ≤ m` against a possibly-NaN float threshold. -/
def cellLePF (v : Option ℚ) (m : PyFloat) : Bool :=
  match v, m with
  | some x, .fin q => decide (x ≤ q)
  | _, _ => false

/-- Rows of one passenger class (`df[df['class'] == c]` / categorical
groupby cell). -/
def byClass (ds : List Row) (c : PClass) : List Row :=
  ds.filter fun r => decide (r.pclass = c)

/-- Rows of one sex. -/
def bySex (ds : List Row) (s : Sex) : List Row :=
  ds.filter fun r => decide (r.sex = s)

/-- The categorical order of the `class` column: First, Second, Third. -/
def classList : List PClass := [.First, .Second, .Third]

/-- Python exceptions the handler can raise, by site. -/
inductive Err
  | unboundLocal
  | keyError
  | valueError
  | zeroDivision
deriving DecidableEq, Repr

/-- `df['survived'].value_counts().values` (src/main.py line 117): counts in
descending-frequency order.  When the two counts are equal the two list
entries coincide, so the tie-breaking order of pandas is immaterial. -/
def value_counts_survived (ds : List Row) : List ℕ :=
  let d := deathCount ds
  let s := survCount ds
  if d < s then [s, d] else [d, s]

/-- Output of insight 1 (`survival_counts`, src/main.py lines 115-149):
bar chart x labels and y values, plus the numbers reaching the
description and stats blocks. -/
structure SurvivalCountsOut where
  barX : List String
  barY : List ℕ
  total : ℕ
  deaths : ℕ
  survivors : ℕ
  mortalityRate : ℚ
  survivalRate : ℚ
  oddsDenom : ℚ
deriving DecidableEq, Repr

/-- Output of insight 2 (`age_distribution`, lines 151-187). -/
structure AgeDistOut where
  ages : List (Option ℚ)
  meanAge : PyFloat
  medianAge : PyFloat
  minAge : PyFloat
  maxAge : PyFloat
  children : ℕ
  childrenPct : ℚ
  youngAdults : ℕ
  youngAdultsPct : ℚ
deriving DecidableEq, Repr

/-- Output of insight 3 (`fare_by_class`, lines 189-217).  The box chart
receives the raw per-class fare columns; the stats block shows the three
class means, the first-class maximum and the First:Third mean-fare factor
(an unguarded float division). -/
structure FareByClassOut where
  faresFirst : List (Option ℚ)
  faresSecond : List (Option ℚ)
  faresThird : List (Option ℚ)
  meanFirst : PyFloat
  meanSecond : PyFloat
  meanThird : PyFloat
  maxFirst : PyFloat
  priceFactor : PyFloat
deriving DecidableEq, Repr

/-- Output of insight 4 (`age_vs_fare`, lines 219-253). -/
structure AgeVsFareOut where
  points : List (Option ℚ × Option ℚ × Bool)
  fareMedian : PyFloat
  highFareSurvival : PyFloat
  lowFareSurvival : PyFloat
  wealthAdvantage : PyFloat
  youngHighFare : PyFloat
  oldLowFare : PyFloat
deriving DecidableEq, Repr

/-- Output of insight 5 (`survival_by_class`, lines 255-293). -/
structure SurvivalByClassOut where
  rateFirst : PyFloat
  rateSecond : PyFloat
  rateThird : PyFloat
  countFirst : ℕ
  countSecond : ℕ
  countThird : ℕ
  survFirst : ℕ
  survSecond : ℕ
  survThird : ℕ
  classGap : PyFloat
deriving DecidableEq, Repr

/-- Output of insight 6 (`age_by_class`, lines 295-322). -/
structure AgeByClassOut where
  agesFirst : List (Option ℚ)
  agesSecond : List (Option ℚ)
  agesThird : List (Option ℚ)
  meanAgeFirst : PyFloat
  meanAgeSecond : PyFloat
  meanAgeThird : PyFloat
  ageGap : PyFloat
deriving DecidableEq, Repr

/-- Output of insight 7 (`age_class_heatmap`, lines 324-358). -/
structure HeatmapOut where
  grid : List (String × List (PClass × PyFloat))
  bestRate : PyFloat
  worstRate : PyFloat
  bestIdx : String × PClass
  worstIdx : String × PClass
deriving DecidableEq, Repr

/-- Output of insight 8 (`gender_survival`, lines 360-397).  `timesMore` is
the "times more likely" figure `gender_survival['female'] /
gender_survival['male']` computed with no zero guard (line 393). -/
structure GenderOut where
  rateFemale : PyFloat
  rateMale : PyFloat
  countFemale : ℕ
  countMale : ℕ
  survFemale : ℕ
  survMale : ℕ
  timesMore : PyFloat
  absDiff : PyFloat
deriving DecidableEq, Repr

/-- Output of insight 9 (`multi_factor`, lines 399-478): the four panels of
the composite figure and the four subgroup statistics.  Undefined
aggregates (empty subgroups) appear as `PyFloat.nan`, exactly as the NaN
that pandas produces; the code contains no marker for them. -/
structure MultiFactorOut where
  panelGenderClass : List ((Sex × PClass) × PyFloat)
  panelAgesSurvived : List (Option ℚ)
  panelAgesDied : List (Option ℚ)
  panelScatterSurvived : List (Option ℚ × Option ℚ)
  panelScatterDied : List (Option ℚ × Option ℚ)
  panelClassCounts : List (PClass × ℕ)
  bestGroup : PyFloat
  worstGroup : PyFloat
  youngFirst : PyFloat
  oldFirst : PyFloat
deriving DecidableEq, Repr

/-- Output of insight 10 (`data_overview`, lines 480-571).  The displayed
age/fare correlation needs a square root, which is irrational in general,
so the output records the determining data (covariance and the two
variances over the complete pairs) exactly. -/
structure OverviewOut where
  total : ℕ
  survivalRate : PyFloat
  meanAge : PyFloat
  meanFare : PyFloat
  maleCount : ℕ
  femaleCount : ℕ
  malePct : ℚ
  femalePct : ℚ
  firstCount : ℕ
  secondCount : ℕ
  thirdCount : ℕ
  firstPct : ℚ
  secondPct : ℚ
  thirdPct : ℚ
  childCount : ℕ
  adultCount : ℕ
  seniorCount : ℕ
  childPct : ℚ
  adultPct : ℚ
  seniorPct : ℚ
  chartRates : List PyFloat
  corrCov : ℚ
  corrVarFare : ℚ
  corrVarAge : ℚ
  classSurvRange : PyFloat
  genderSurvRange : PyFloat
  missingTotal : ℕ
  minAge : PyFloat
  maxAge : PyFloat
  maxFare : PyFloat
  freeTickets : ℕ
deriving DecidableEq, Repr

/-- The response payload of one branch of `update_visualization` (the data
reaching the chart, description and stats outputs). -/
inductive Output
  | survivalCounts : SurvivalCountsOut → Output
  | ageDistribution : AgeDistOut → Output
  | fareByClass : FareByClassOut → Output
  | ageVsFare : AgeVsFareOut → Output
  | survivalByClass : SurvivalByClassOut → Output
  | ageByClass : AgeByClassOut → Output
  | heatmap : HeatmapOut → Output
  | genderSurvival : GenderOut → Output
  | multiFactor : MultiFactorOut → Output
  | overview : OverviewOut → Output
deriving DecidableEq, Repr

/-- Branch 1, `survival_counts` (lines 115-149).  The description and stats
index `value_counts` by label (`survival_counts[0]`, `survival_counts[1]`),
which raises KeyError when either outcome has no rows; the bar y-values
take the counts in descending-frequency order while the x labels are the
fixed list `['Died', 'Survived']`. -/
def survival_counts_branch (ds : List Row) : Except Err Output :=
  let d := deathCount ds
  let s := survCount ds
  if d = 0 ∨ s = 0 then .error .keyError
  else .ok (.survivalCounts
    { barX := ["Died", "Survived"]
      barY := value_counts_survived ds
      total := ds.length
      deaths := d
      survivors := s
      mortalityRate := (d : ℚ) / ds.length * 100
      survivalRate := (s : ℚ) / ds.length * 100
      oddsDenom := (ds.length : ℚ) / s })

/-- Branch 2, `age_distribution` (lines 151-187).  The percentage lines
divide by `len(df)` with Python integer operands, so an empty dataset
raises ZeroDivisionError. -/
def age_distribution_branch (ds : List Row) : Except Err Output :=
  if ds.length = 0 then .error .zeroDivision
  else
    let ages := ds.map (·.age)
    let children := (ds.filter fun r => cellLt r.age 18).length
    let youngAdults := (ds.filter fun r => cellGe r.age 20 && cellLt r.age 40).length
    .ok (.ageDistribution
      { ages := ages
        meanAge := seriesMean ages
        medianAge := seriesMedian ages
        minAge := seriesMin ages
        maxAge := seriesMax ages
        children := children
        childrenPct := (children : ℚ) / ds.length * 100
        youngAdults := youngAdults
        youngAdultsPct := (youngAdults : ℚ) / ds.length * 100 })

/-- Branch 3, `fare_by_class` (lines 189-217).  `groupby('class')` on the
categorical column always yields all three classes (NaN mean on an empty
group), so the `.loc` lookups cannot fail; the 1st:3rd price factor is an
unguarded float division. -/
def fare_by_class_branch (ds : List Row) : Except Err Output :=
  let fFirst := (byClass ds .First).map (·.fare)
  let fSecond := (byClass ds .Second).map (·.fare)
  let fThird := (byClass ds .Third).map (·.fare)
  .ok (.fareByClass
    { faresFirst := fFirst
      faresSecond := fSecond
      faresThird := fThird
      meanFirst := seriesMean fFirst
      meanSecond := seriesMean fSecond
      meanThird := seriesMean fThird
      maxFirst := seriesMax fFirst
      priceFactor := (seriesMean fFirst).div (seriesMean fThird) })

/-- Branch 4, `age_vs_fare` (lines 219-253).  Every threshold comparison is
a pandas mask, so a NaN median simply selects nothing and the subgroup
means become NaN; no exception is possible. -/
def age_vs_fare_branch (ds : List Row) : Except Err Output :=
  let fm := seriesMedian (ds.map (·.fare))
  let highFare := survivedMean (ds.filter fun r => cellGtPF r.fare fm)
  let lowFare := survivedMean (ds.filter fun r => cellLePF r.fare fm)
  .ok (.ageVsFare
    { points := ds.map fun r => (r.age, r.fare, r.survived)
      fareMedian := fm
      highFareSurvival := highFare
      lowFareSurvival := lowFare
      wealthAdvantage := highFare.sub lowFare
      youngHighFare := survivedMean (ds.filter fun r => cellLt r.age 40 && cellGtPF r.fare fm)
      oldLowFare := survivedMean (ds.filter fun r => cellGe r.age 40 && cellLePF r.fare fm) })

/-- Branch 5, `survival_by_class` (lines 255-293). -/
def survival_by_class_branch (ds : List Row) : Except Err Output :=
  let rF := survivedMean (byClass ds .First)
  let rT := survivedMean (byClass ds .Third)
  .ok (.survivalByClass
    { rateFirst := rF
      rateSecond := survivedMean (byClass ds .Second)
      rateThird := rT
      countFirst := (byClass ds .First).length
      countSecond := (byClass ds .Second).length
      countThird := (byClass ds .Third).length
      survFirst := survCount (byClass ds .First)
      survSecond := survCount (byClass ds .Second)
      survThird := survCount (byClass ds .Third)
      classGap := rF.sub rT })

/-- Branch 6, `age_by_class` (lines 295-322). -/
def age_by_class_branch (ds : List Row) : Except Err Output :=
  let aF := (byClass ds .First).map (·.age)
  let aS := (byClass ds .Second).map (·.age)
  let aT := (byClass ds .Third).map (·.age)
  .ok (.ageByClass
    { agesFirst := aF
      agesSecond := aS
      agesThird := aT
      meanAgeFirst := seriesMean aF
      meanAgeSecond := seriesMean aS
      meanAgeThird := seriesMean aT
      ageGap := (seriesMean aF).sub (seriesMean aT) })

/-- The 2-D pivot of insight 7 (line 326):
`df.groupby(['age_grouped', 'class'])['survived'].mean().unstack()`.
Both groupers are ordered categoricals, so pandas lists every age-group
row in declared label order and every class column in the canonical order
First, Second, Third, with NaN in cells whose group is empty; groupby
drops rows whose `age_grouped` is NaN. -/
def pivot_table (ds : List Row) : List (String × List (PClass × PyFloat)) :=
  ageLabels.map fun a =>
    (a, classList.map fun c =>
      (c, survivedMean (ds.filter fun r =>
            decide (r.age_grouped = some a) && decide (r.pclass = c))))

/-- `pivot_table.stack()`: the defined (non-NaN) cells in row-major order. -/
def stackedCells (ds : List Row) : List ((String × PClass) × ℚ) :=
  (pivot_table ds).flatMap fun row =>
    row.2.filterMap fun cell =>
      match cell.2 with
      | .fin q => some ((row.1, cell.1), q)
      | _ => none

/-- `Series.idxmax` together with the max value: the first entry holding the
maximum; `none` on an empty series (pandas raises ValueError there). -/
def argmaxCell : List ((String × PClass) × ℚ) → Option ((String × PClass) × ℚ)
  | [] => none
  | x :: xs => some (xs.foldl (fun b y => if b.2 < y.2 then y else b) x)

/-- `Series.idxmin` together with the min value. -/
def argminCell : List ((String × PClass) × ℚ) → Option ((String × PClass) × ℚ)
  | [] => none
  | x :: xs => some (xs.foldl (fun b y => if y.2 < b.2 then y else b) x)

/-- Branch 7, `age_class_heatmap` (lines 324-358).  `idxmax`/`idxmin` on the
stacked series raise ValueError when every cell is NaN (no row carries an
age bucket); `pivot.max().max()` over the grid equals the stacked max. -/
def age_class_heatmap_branch (ds : List Row) : Except Err Output :=
  match argmaxCell (stackedCells ds), argminCell (stackedCells ds) with
  | some bi, some wi =>
      .ok (.heatmap
        { grid := pivot_table ds
          bestRate := .fin bi.2
          worstRate := .fin wi.2
          bestIdx := bi.1
          worstIdx := wi.1 })
  | _, _ => .error .valueError

/-- Branch 8, `gender_survival` (lines 360-397).  `groupby('sex')` on the
object-dtype column contains only observed sexes, so the label lookups
`['female']` / `['male']` raise KeyError when a sex is absent; the
"times more likely" figure divides the two rates with no zero guard. -/
def gender_survival_branch (ds : List Row) : Except Err Output :=
  let females := bySex ds .female
  let males := bySex ds .male
  if females.length = 0 ∨ males.length = 0 then .error .keyError
  else
    let rF := survivedMean females
    let rM := survivedMean males
    .ok (.genderSurvival
      { rateFemale := rF
        rateMale := rM
        countFemale := females.length
        countMale := males.length
        survFemale := survCount females
        survMale := survCount males
        timesMore := rF.div rM
        absDiff := rF.sub rM })

/-- The sexes observed in the dataset in groupby order (lexicographic:
female before male). -/
def observedSexes (ds : List Row) : List Sex :=
  (if ds.any fun r => decide (r.sex = Sex.female) then [Sex.female] else []) ++
  (if ds.any fun r => decide (r.sex = Sex.male) then [Sex.male] else [])

/-- Panel 1 of the composite (line 411): the row index of
`pd.crosstab([df['sex'], df['class']], df['survived'], normalize='index')`
— observed sexes crossed with all class categories — with the column-1
entry of each row, i.e. the survival fraction of the subgroup (NaN for an
empty subgroup, since normalizing a zero row gives 0/0). -/
def crossTabGenderClass (ds : List Row) : List ((Sex × PClass) × PyFloat) :=
  (observedSexes ds).flatMap fun s =>
    classList.map fun c =>
      ((s, c), survivedMean (ds.filter fun r =>
        decide (r.sex = s) && decide (r.pclass = c)))

/-- Panel 4 of the composite (line 442): `df['class'].value_counts()` on the
categorical column lists all three classes sorted by descending count
(stable within equal counts). -/
def classValueCounts (ds : List Row) : List (PClass × ℕ) :=
  List.insertionSort (fun a b => b.2 ≤ a.2)
    (classList.map fun c => (c, (byClass ds c).length))

/-- Branch 9, `multi_factor` (lines 399-478).  The bar loop reads
`cross_tab.loc[(gender, class_name), 1]`; the crosstab has a column for
each observed value of `survived`, so with a non-empty dataset and no
survivors the label 1 is missing and KeyError is raised.  Every subgroup
statistic is an unguarded mean: an empty subgroup yields NaN, and no code
marks it. -/
def multi_factor_branch (ds : List Row) : Except Err Output :=
  if ds.length ≠ 0 ∧ survCount ds = 0 then .error .keyError
  else
    .ok (.multiFactor
      { panelGenderClass := crossTabGenderClass ds
        panelAgesSurvived := (ds.filter (·.survived)).map (·.age)
        panelAgesDied := (ds.filter fun r => ! r.survived).map (·.age)
        panelScatterSurvived := (ds.filter (·.survived)).map fun r => (r.age, r.fare)
        panelScatterDied := (ds.filter fun r => ! r.survived).map fun r => (r.age, r.fare)
        panelClassCounts := classValueCounts ds
        bestGroup := survivedMean (ds.filter fun r =>
          decide (r.pclass = PClass.First) && decide (r.sex = Sex.female))
        worstGroup := survivedMean (ds.filter fun r =>
          decide (r.pclass = PClass.Third) && decide (r.sex = Sex.male))
        youngFirst := survivedMean (ds.filter fun r =>
          decide (r.pclass = PClass.First) && cellLt r.age 30)
        oldFirst := survivedMean (ds.filter fun r =>
          decide (r.pclass = PClass.First) && cellGe r.age 50) })

/-- The complete (fare, age) pairs that `df['fare'].corr(df['age'])` uses. -/
def corrPairs (ds : List Row) : List (ℚ × ℚ) :=
  ds.filterMap fun r =>
    match r.fare, r.age with
    | some f, some a => some (f, a)
    | _, _ => none

/-- Max over a list of already-computed group means, skipping NaN entries
(`Series.max()` on a series of means, which are finite or NaN). -/
def pfListMax (xs : List PyFloat) : PyFloat :=
  match xs.filterMap (fun x => match x with | .fin q => some q | _ => none) with
  | [] => .nan
  | y :: ys => .fin (ys.foldl max y)

/-- Min over a list of group means, skipping NaN entries. -/
def pfListMin (xs : List PyFloat) : PyFloat :=
  match xs.filterMap (fun x => match x with | .fin q => some q | _ => none) with
  | [] => .nan
  | y :: ys => .fin (ys.foldl min y)

/-- Number of missing cells over the nullable columns of the model schema
(`df.isnull().sum().sum()`, line 564, restricted to the columns carried
by `Row`). -/
def missingCellCount (ds : List Row) : ℕ :=
  (ds.map fun r =>
    (if r.age = none then 1 else 0) + (if r.fare = none then 1 else 0) +
    (if r.age_grouped = none then 1 else 0) +
    (if r.fare_grouped = none then 1 else 0)).sum

/-- Branch 10, `data_overview` (lines 480-571).  The percentage lines divide
Python ints by `len(df)`, so an empty dataset raises ZeroDivisionError.
The fare/age correlation is recorded by its determining sums over the
complete pairs: covariance and the two variances (the displayed value is
`cov / sqrt(varFare * varAge)`, irrational in general). -/
def data_overview_branch (ds : List Row) : Except Err Output :=
  if ds.length = 0 then .error .zeroDivision
  else
    let n : ℚ := ds.length
    let males := bySex ds .male
    let females := bySex ds .female
    let ages := ds.map (·.age)
    let fares := ds.map (·.fare)
    let children := (ds.filter fun r => cellLt r.age 18).length
    let adults := (ds.filter fun r => cellGe r.age 18 && cellLt r.age 65).length
    let seniors := (ds.filter fun r => cellGe r.age 65).length
    let pairs := corrPairs ds
    let m : ℚ := pairs.length
    let muF : ℚ := if m = 0 then 0 else (pairs.map Prod.fst).sum / m
    let muA : ℚ := if m = 0 then 0 else (pairs.map Prod.snd).sum / m
    let classRates := classList.map fun c => survivedMean (byClass ds c)
    let sexRates := (observedSexes ds).map fun s => survivedMean (bySex ds s)
    .ok (.overview
      { total := ds.length
        survivalRate := survivedMean ds
        meanAge := seriesMean ages
        meanFare := seriesMean fares
        maleCount := males.length
        femaleCount := females.length
        malePct := (males.length : ℚ) / n * 100
        femalePct := (females.length : ℚ) / n * 100
        firstCount := (byClass ds .First).length
        secondCount := (byClass ds .Second).length
        thirdCount := (byClass ds .Third).length
        firstPct := ((byClass ds .First).length : ℚ) / n * 100
        secondPct := ((byClass ds .Second).length : ℚ) / n * 100
        thirdPct := ((byClass ds .Third).length : ℚ) / n * 100
        childCount := children
        adultCount := adults
        seniorCount := seniors
        childPct := (children : ℚ) / n * 100
        adultPct := (adults : ℚ) / n * 100
        seniorPct := (seniors : ℚ) / n * 100
        chartRates := [survivedMean ds, survivedMean males, survivedMean females,
          survivedMean (byClass ds .First), survivedMean (byClass ds .Second),
          survivedMean (byClass ds .Third)]
        corrCov := (pairs.map fun p => (p.1 - muF) * (p.2 - muA)).sum
        corrVarFare := (pairs.map fun p => (p.1 - muF) * (p.1 - muF)).sum
        corrVarAge := (pairs.map fun p => (p.2 - muA) * (p.2 - muA)).sum
        classSurvRange := (pfListMax classRates).sub (pfListMin classRates)
        genderSurvRange := (pfListMax sexRates).sub (pfListMin sexRates)
        missingTotal := missingCellCount ds
        minAge := seriesMin ages
        maxAge := seriesMax ages
        maxFare := seriesMax fares
        freeTickets := (ds.filter fun r => decide (r.fare = some 0)).length })

/-- The ten registered selector keys (the `value` fields of
`insight_options`, src/main.py lines 38-49). -/
def validKeys : List String :=
  ["survival_counts", "age_distribution", "fare_by_class", "age_vs_fare",
   "survival_by_class", "age_by_class", "age_class_heatmap",
   "gender_survival", "multi_factor", "data_overview"]

/-- The request handler `update_visualization` (src/main.py lines 113-573):
an if/elif chain over the selector key with no else branch.  The handler
only reads the module-level dataframe, so the dataset is threaded through
explicitly and returned unchanged; a key outside the chain leaves
`fig`, `description` and `stats` unbound and the final return statement
raises UnboundLocalError. -/
def update_visualization (ds : List Row) (key : String) :
    Except Err Output × List Row :=
  ((if key = "survival_counts" then survival_counts_branch ds
    else if key = "age_distribution" then age_distribution_branch ds
    else if key = "fare_by_class" then fare_by_class_branch ds
    else if key = "age_vs_fare" then age_vs_fare_branch ds
    else if key = "survival_by_class" then survival_by_class_branch ds
    else if key = "age_by_class" then age_by_class_branch ds
    else if key = "age_class_heatmap" then age_class_heatmap_branch ds
    else if key = "gender_survival" then gender_survival_branch ds
    else if key = "multi_factor" then multi_factor_branch ds
    else if key = "data_overview" then data_overview_branch ds
    else .error .unboundLocal), ds)

/-- A raw row as supplied by the dataset provider (derived columns not yet
computed). -/
def mkRaw (age fare : Option ℚ) (s : Sex) (c : PClass) (sv : Bool) : Row :=
  { age := age, fare := fare, sex := s, pclass := c, survived := sv,
    age_grouped := none, fare_grouped := none }

/-- The three-row concrete scenario of the specification:
[{age 30, fare 10, male, Third, died}, {age 8, fare 50, female, First,
survived}, {age 40, fare missing, male, Second, died}]. -/
def specScenarioRaw : List Row :=
  [mkRaw (some 30) (some 10) .male .Third false,
   mkRaw (some 8) (some 50) .female .First true,
   mkRaw (some 40) none .male .Second false]

/-- The specification's scenario after the preparation pass. -/
def specScenarioDs : List Row := load_and_prepare_data specScenarioRaw

/-- A dataset whose male subgroup has zero survivors while females have a
survivor: the denominator of the gender "times more likely" figure is
zero. -/
def zeroMaleSurvDs : List Row := load_and_prepare_data
  [mkRaw (some 30) (some 10) .male .Third false,
   mkRaw (some 25) (some 8) .male .Third false,
   mkRaw (some 22) (some 80) .female .First true,
   mkRaw (some 28) (some 15) .female .Second false]

/-- A second, smaller dataset with the same zero-male-survivor shape. -/
def zeroMaleSurvDs2 : List Row := load_and_prepare_data
  [mkRaw (some 40) (some 12) .male .Second false,
   mkRaw (some 35) (some 90) .female .First true]

/-- A dataset in which the (First, female) subgroup of the composite insight
is empty while every other subgroup statistic is well defined. -/
def emptyFirstFemaleDs : List Row := load_and_prepare_data
  [mkRaw (some 25) (some 100) .male .First true,
   mkRaw (some 60) (some 120) .male .First false,
   mkRaw (some 30) (some 20) .female .Second true,
   mkRaw (some 20) (some 8) .male .Third false,
   mkRaw (some 22) (some 9) .female .Third true]

/-- Projection: the `timesMore` figure of a gender-survival response. -/
def timesMoreOf : Except Err Output → Option PyFloat
  | .ok (.genderSurvival g) => some g.timesMore
  | _ => none

/-- Projection: the payload of a multi-factor response. -/
def multiFactorOf : Except Err Output → Option MultiFactorOut
  | .ok (.multiFactor m) => some m
  | _ => none

/-- Projection: the payload of a survival-counts response. -/
def survivalCountsOf : Except Err Output → Option SurvivalCountsOut
  | .ok (.survivalCounts o) => some o
  | _ => none

/-- Projection: the first bar value (the bar drawn at x label 'Died') of a
survival-counts response. -/
def firstBarOf : Except Err Output → Option ℕ
  | .ok (.survivalCounts o) => o.barY.head?
  | _ => none

/-- Whether a response was produced without an exception. -/
def exceptIsOk : Except Err Output → Bool
  | .ok _ => true
  | .error _ => false

/-- The column mean is `none` exactly when every cell of the column is
missing. -/
theorem colMean_eq_none_iff (xs : List (Option ℚ)) :
    colMean xs = none ↔ ∀ x ∈ xs, x = none := by
  simp [colMean, List.length_eq_zero, List.filterMap_eq_nil_iff]

/-- C1 (counterexample).  The claim says an unregistered key yields a
graceful UnknownInsight response; on the key "not_a_registered_key" the
handler instead falls through the whole if/elif chain and raises
(UnboundLocalError at the return statement), producing no response. -/
theorem unknown_key_counterexample :
    (update_visualization specScenarioDs "not_a_registered_key").1 =
      Except.error Err.unboundLocal := rfl

/-- C1 (amended).  For every key outside the ten registered ones,
`update_visualization` matches no branch and raises (modelled
UnboundLocalError) instead of returning a response with a user-visible
UnknownInsight message. -/
theorem unknown_key_raises (ds : List Row) (key : String)
    (h : key ∉ validKeys) :
    (update_visualization ds key).1 = Except.error Err.unboundLocal := by
  simp only [validKeys, List.mem_cons, List.not_mem_nil, or_false, not_or] at h
  obtain ⟨h1, h2, h3, h4, h5, h6, h7, h8, h9, h10⟩ := h
  simp [update_visualization, h1, h2, h3, h4, h5, h6, h7, h8, h9, h10]

/-- C1 (witness): the amended theorem applied at a concrete dataset and a
concrete unregistered key. -/
theorem unknown_key_raises_witness :
    (update_visualization zeroMaleSurvDs2 "overview_typo").1 =
      Except.error Err.unboundLocal :=
  unknown_key_raises zeroMaleSurvDs2 "overview_typo" (by decide)

/-- C3 (counterexample).  On the specification's own three-row scenario the
prepared fares are [10, 50, missing]: the missing fare is NOT imputed to
30.0 — only the age column is imputed by the code. -/
theorem fare_not_imputed_counterexample :
    (load_and_prepare_data specScenarioRaw).map (·.fare) = [some 10, some 50, none] ∧
    (load_and_prepare_data specScenarioRaw).map (·.fare) ≠ [some 10, some 50, some 30] := by
  constructor <;> decide

/-- C3 (amended).  The preparation pass mean-imputes only the age column;
the fare column is returned cell-for-cell unchanged (a missing fare stays
missing). -/
theorem only_age_imputed (ds : List Row) :
    (load_and_prepare_data ds).map (·.fare) = ds.map (·.fare) ∧
    (load_and_prepare_data ds).map (·.age) =
      ds.map (fun r => fillna (colMean (ds.map (·.age))) r.age) := by
  constructor <;> simp [load_and_prepare_data, deriveRow, List.map_map, Function.comp]

/-- C6.  The preparation pass is idempotent: running mean imputation plus
age/fare bucketing a second time on already-prepared rows changes
nothing — no value is re-imputed and no bucket label shifts. -/
theorem load_and_prepare_data_idempotent (ds : List Row) :
    load_and_prepare_data (load_and_prepare_data ds) = load_and_prepare_data ds := by
  unfold load_and_prepare_data
  rcases h : colMean (ds.map (·.age)) with _ | μ
  · have hall : ∀ r ∈ ds, r.age = none := by
      have hmem := (colMean_eq_none_iff _).mp h
      intro r hr
      exact hmem _ (List.mem_map_of_mem _ hr)
    have hages : colMean ((ds.map (deriveRow none)).map (·.age)) = none := by
      apply (colMean_eq_none_iff _).mpr
      intro x hx
      simp only [List.map_map, List.mem_map, Function.comp] at hx
      obtain ⟨r, hr, hxe⟩ := hx
      rw [← hxe]
      simp [deriveRow, fillna, hall r hr]
    rw [h, hages, List.map_map]
    apply List.map_congr_left
    intro r hr
    simp [Function.comp, deriveRow, fillna, hall r hr, pdCut]
  · rw [h, List.map_map]
    apply List.map_congr_left
    intro r _
    rcases hr2 : r.age with _ | x <;>
      simp [Function.comp, deriveRow, fillna, hr2, pdCut]

/-- C7.  For every dataset the 2-D pivot of the `age_class_heatmap` insight
lists its rows in the declared ordinal age-group order Child, Teen,
Adult, Middle-Aged, Senior and its columns in the canonical class order
First, Second, Third. -/
theorem pivot_table_ordering (ds : List Row) :
    (pivot_table ds).map Prod.fst =
      ["Child", "Teen", "Adult", "Middle-Aged", "Senior"] ∧
    (pivot_table ds).map (fun row => row.2.map Prod.fst) =
      [classList, classList, classList, classList, classList] := by
  constructor <;> simp [pivot_table, ageLabels, classList, List.map_map]

/-- C2 (counterexample).  On a dataset whose male subgroup has zero
survivors, the "times more likely" figure of the `gender_survival` stats
block is the propagated infinite value, not a "not applicable"
sentinel (the code divides the two rates with no zero guard). -/
theorem gender_ratio_infinite_counterexample :
    timesMoreOf (update_visualization zeroMaleSurvDs "gender_survival").1 =
      some PyFloat.inf := by
  rw [show (update_visualization zeroMaleSurvDs "gender_survival").1 =
        gender_survival_branch zeroMaleSurvDs from rfl]
  unfold gender_survival_branch
  rw [if_neg (by decide)]
  simp only [timesMoreOf, Option.some.injEq]
  have h1 : survivedMean (bySex zeroMaleSurvDs Sex.female) = .fin (1 / 2) := by
    unfold survivedMean
    rw [show ((bySex zeroMaleSurvDs Sex.female).filter (·.survived)).length = 1
          from by decide,
        show (bySex zeroMaleSurvDs Sex.female).length = 2 from by decide]
    norm_num
  have h2 : survivedMean (bySex zeroMaleSurvDs Sex.male) = .fin 0 := by
    unfold survivedMean
    rw [show ((bySex zeroMaleSurvDs Sex.male).filter (·.survived)).length = 0
          from by decide,
        show (bySex zeroMaleSurvDs Sex.male).length = 2 from by decide]
    norm_num
  rw [h1, h2]
  norm_num [PyFloat.div]

/-- C2 (amended).  Whenever both sexes are present, no male survives and at
least one female survives, the gender branch succeeds and its
"times more likely" figure is the unguarded quotient female-rate / 0,
i.e. positive infinity; no sentinel is substituted. -/
theorem gender_ratio_unguarded (ds : List Row)
    (hf : 0 < (bySex ds .female).length)
    (hm : 0 < (bySex ds .male).length)
    (hms : survCount (bySex ds .male) = 0)
    (hfs : 0 < survCount (bySex ds .female)) :
    timesMoreOf (update_visualization ds "gender_survival").1 =
      some PyFloat.inf := by
  rw [show (update_visualization ds "gender_survival").1 =
        gender_survival_branch ds from rfl]
  unfold gender_survival_branch
  rw [if_neg (by omega)]
  have hmale : survivedMean (bySex ds .male) = .fin 0 := by
    unfold survivedMean
    rw [if_neg (by omega)]
    have h0 : (((bySex ds .male).filter (·.survived)).length : ℚ) = 0 := by
      exact_mod_cast congrArg (Nat.cast (R := ℚ)) hms
    rw [h0, zero_div]
  have hfq : (0 : ℚ) <
      (((bySex ds .female).filter (·.survived)).length : ℚ) /
        ((bySex ds .female).length : ℚ) := by
    apply div_pos
    · exact_mod_cast hfs
    · exact_mod_cast hf
  have hfem : survivedMean (bySex ds .female) =
      .fin ((((bySex ds .female).filter (·.survived)).length : ℚ) /
        ((bySex ds .female).length : ℚ)) := by
    unfold survivedMean
    rw [if_neg (by omega)]
  simp only [timesMoreOf, hmale, hfem]
  simp [PyFloat.div, hfq, hfq.ne']

/-- C2 (witness): the amended theorem applied at a concrete two-row dataset
with a dead male and a surviving female. -/
theorem gender_ratio_unguarded_witness :
    timesMoreOf (update_visualization zeroMaleSurvDs2 "gender_survival").1 =
      some PyFloat.inf :=
  gender_ratio_unguarded zeroMaleSurvDs2 (by decide) (by decide) (by decide) (by decide)

/-- C4 (counterexample).  A value equal to the lowest bin boundary (age 0 or
fare 0) receives no bucket label: `pd.cut` intervals are left-open, so
the lowest boundary itself is out of range, contrary to the claim. -/
theorem lowest_boundary_excluded_counterexample :
    pdCut (some 0) ageBins ageLabels = none ∧
    pdCut (some 0) fareBins fareLabels = none := by decide

/-- C4 (amended).  Bucketing is total on the half-open in-range interval:
every value strictly above the lowest boundary and at most the highest
gets exactly one label (the function returns one `some` label), while a
value at or below the lowest boundary, or above the highest, gets the
missing marker (NaN / `none`) and never an error. -/
theorem cut_total_in_range (v : ℚ) :
    (0 < v → v ≤ 80 → (cutFind v ageBins ageLabels).isSome = true) ∧
    (v ≤ 0 ∨ 80 < v → cutFind v ageBins ageLabels = none) ∧
    (0 < v → v ≤ 500 → (cutFind v fareBins fareLabels).isSome = true) ∧
    (v ≤ 0 ∨ 500 < v → cutFind v fareBins fareLabels = none) := by
  refine ⟨?_, ?_, ?_, ?_⟩
  · intro hpos hle
    simp only [ageBins, ageLabels, cutFind]
    split_ifs with h1 h2 h3 h4 h5
    · rfl
    · rfl
    · rfl
    · rfl
    · rfl
    · exfalso
      push_neg at h1 h2 h3 h4 h5
      have i1 := h1 hpos
      have i2 := h2 (by linarith)
      have i3 := h3 (by linarith)
      have i4 := h4 (by linarith)
      have i5 := h5 (by linarith)
      linarith
  · intro h
    simp only [ageBins, ageLabels, cutFind]
    split_ifs with h1 h2 h3 h4 h5
    · exfalso; rcases h with h | h <;> linarith [h1.1, h1.2]
    · exfalso; rcases h with h | h <;> linarith [h2.1, h2.2]
    · exfalso; rcases h with h | h <;> linarith [h3.1, h3.2]
    · exfalso; rcases h with h | h <;> linarith [h4.1, h4.2]
    · exfalso; rcases h with h | h <;> linarith [h5.1, h5.2]
    · rfl
  · intro hpos hle
    simp only [fareBins, fareLabels, cutFind]
    split_ifs with h1 h2 h3 h4 h5 h6
    · rfl
    · rfl
    · rfl
    · rfl
    · rfl
    · rfl
    · exfalso
      push_neg at h1 h2 h3 h4 h5 h6
      have i1 := h1 hpos
      have i2 := h2 (by linarith)
      have i3 := h3 (by linarith)
      have i4 := h4 (by linarith)
      have i5 := h5 (by linarith)
      have i6 := h6 (by linarith)
      linarith
  · intro h
    simp only [fareBins, fareLabels, cutFind]
    split_ifs with h1 h2 h3 h4 h5 h6
    · exfalso; rcases h with h | h <;> linarith [h1.1, h1.2]
    · exfalso; rcases h with h | h <;> linarith [h2.1, h2.2]
    · exfalso; rcases h with h | h <;> linarith [h3.1, h3.2]
    · exfalso; rcases h with h | h <;> linarith [h4.1, h4.2]
    · exfalso; rcases h with h | h <;> linarith [h5.1, h5.2]
    · exfalso; rcases h with h | h <;> linarith [h6.1, h6.2]
    · rfl

/-- C4 (witness): the amended theorem applied at the concrete in-range value
5 and the concrete out-of-range value 600. -/
theorem cut_total_in_range_witness :
    (cutFind 5 ageBins ageLabels).isSome = true ∧
    cutFind 600 fareBins fareLabels = none :=
  ⟨(cut_total_in_range 5).1 (by norm_num) (by norm_num),
   (cut_total_in_range 600).2.2.2 (Or.inr (by norm_num))⟩

/-- C5 (counterexample).  On a dataset whose (First, female) subgroup is
empty (one undefined sub-aggregation), the composite insight does return
a response without throwing, but the failed aggregate is the bare NaN
that pandas propagates — the output carries no explicit failure marker
for the panel, contrary to the claim. -/
theorem composite_nan_counterexample :
    exceptIsOk (update_visualization emptyFirstFemaleDs "multi_factor").1 = true ∧
    (multiFactorOf (update_visualization emptyFirstFemaleDs "multi_factor").1).map
        (·.bestGroup) = some PyFloat.nan := by
  constructor
  · decide
  · decide

/-- C5 (amended).  When the (First, female) subgroup is empty but the
dataset has at least one survivor and the other three subgroup
aggregations are over non-empty groups, the composite branch returns a
response without throwing; the three well-defined aggregates are finite,
while the empty subgroup's statistic is the unmarked NaN value. -/
theorem composite_undefined_subgroup (ds : List Row)
    (h0 : (ds.filter fun r =>
        decide (r.pclass = PClass.First) && decide (r.sex = Sex.female)).length = 0)
    (hs : 0 < survCount ds)
    (hw : 0 < (ds.filter fun r =>
        decide (r.pclass = PClass.Third) && decide (r.sex = Sex.male)).length)
    (hy : 0 < (ds.filter fun r =>
        decide (r.pclass = PClass.First) && cellLt r.age 30).length)
    (ho : 0 < (ds.filter fun r =>
        decide (r.pclass = PClass.First) && cellGe r.age 50).length) :
    exceptIsOk (update_visualization ds "multi_factor").1 = true ∧
    (multiFactorOf (update_visualization ds "multi_factor").1).map (·.bestGroup) =
      some PyFloat.nan ∧
    (∃ q, (multiFactorOf (update_visualization ds "multi_factor").1).map (·.worstGroup) =
      some (PyFloat.fin q)) ∧
    (∃ q, (multiFactorOf (update_visualization ds "multi_factor").1).map (·.youngFirst) =
      some (PyFloat.fin q)) ∧
    (∃ q, (multiFactorOf (update_visualization ds "multi_factor").1).map (·.oldFirst) =
      some (PyFloat.fin q)) := by
  rw [show (update_visualization ds "multi_factor").1 = multi_factor_branch ds from rfl]
  unfold multi_factor_branch
  rw [if_neg (by omega)]
  refine ⟨rfl, ?_, ?_, ?_, ?_⟩
  · simp only [multiFactorOf, Option.map_some']
    unfold survivedMean
    rw [h0]
    simp
  · refine ⟨(((ds.filter fun r =>
        decide (r.pclass = PClass.Third) && decide (r.sex = Sex.male)).filter
          (·.survived)).length : ℚ) /
      ((ds.filter fun r =>
        decide (r.pclass = PClass.Third) && decide (r.sex = Sex.male)).length : ℚ), ?_⟩
    simp only [multiFactorOf, Option.map_some']
    unfold survivedMean
    rw [if_neg (by omega)]
  · refine ⟨(((ds.filter fun r =>
        decide (r.pclass = PClass.First) && cellLt r.age 30).filter
          (·.survived)).length : ℚ) /
      ((ds.filter fun r =>
        decide (r.pclass = PClass.First) && cellLt r.age 30).length : ℚ), ?_⟩
    simp only [multiFactorOf, Option.map_some']
    unfold survivedMean
    rw [if_neg (by omega)]
  · refine ⟨(((ds.filter fun r =>
        decide (r.pclass = PClass.First) && cellGe r.age 50).filter
          (·.survived)).length : ℚ) /
      ((ds.filter fun r =>
        decide (r.pclass = PClass.First) && cellGe r.age 50).length : ℚ), ?_⟩
    simp only [multiFactorOf, Option.map_some']
    unfold survivedMean
    rw [if_neg (by omega)]

/-- C5 (witness): the amended theorem applied at the concrete dataset with
an empty (First, female) subgroup. -/
theorem composite_undefined_subgroup_witness :
    exceptIsOk (update_visualization emptyFirstFemaleDs "multi_factor").1 = true ∧
    (multiFactorOf (update_visualization emptyFirstFemaleDs "multi_factor").1).map
        (·.bestGroup) = some PyFloat.nan ∧
    (∃ q, (multiFactorOf (update_visualization emptyFirstFemaleDs "multi_factor").1).map
        (·.worstGroup) = some (PyFloat.fin q)) ∧
    (∃ q, (multiFactorOf (update_visualization emptyFirstFemaleDs "multi_factor").1).map
        (·.youngFirst) = some (PyFloat.fin q)) ∧
    (∃ q, (multiFactorOf (update_visualization emptyFirstFemaleDs "multi_factor").1).map
        (·.oldFirst) = some (PyFloat.fin q)) :=
  composite_undefined_subgroup emptyFirstFemaleDs (by decide) (by decide) (by decide)
    (by decide) (by decide)

/-- C8.  For every registered key, issuing the same request twice against
the same prepared snapshot yields the identical response and leaves the
snapshot as it was: the handler is a pure function of the snapshot and
the key, with no state carried between requests. -/
theorem update_visualization_deterministic (ds : List Row) (key : String)
    (h : key ∈ validKeys) :
    (update_visualization (update_visualization ds key).2 key).1 =
      (update_visualization ds key).1 ∧
    (update_visualization (update_visualization ds key).2 key).2 = ds :=
  ⟨rfl, rfl⟩

/-- C8 (witness): determinism applied at a concrete dataset and key. -/
theorem update_visualization_deterministic_witness :
    (update_visualization (update_visualization specScenarioDs "survival_counts").2
        "survival_counts").1 =
      (update_visualization specScenarioDs "survival_counts").1 ∧
    (update_visualization (update_visualization specScenarioDs "survival_counts").2
        "survival_counts").2 = specScenarioDs :=
  update_visualization_deterministic specScenarioDs "survival_counts" (by decide)

/-- C9.  No insight computation mutates the dataset: for every registered
key the handler returns the prepared snapshot exactly as it received it
(the Python body contains no assignment to the dataframe, so the
state-passing embedding returns it unchanged). -/
theorem update_visualization_frame (ds : List Row) (key : String)
    (h : key ∈ validKeys) :
    (update_visualization ds key).2 = ds := rfl

/-- C9 (witness): the frame property applied at a concrete dataset and key. -/
theorem update_visualization_frame_witness :
    (update_visualization zeroMaleSurvDs "age_class_heatmap").2 = zeroMaleSurvDs :=
  update_visualization_frame zeroMaleSurvDs "age_class_heatmap" (by decide)

/-- C10.  In the `survival_counts` insight the first bar (x label 'Died')
carries the death count exactly when deaths are at least as numerous as
survivals — the y-values come from `value_counts` in descending-frequency
order while the x labels are fixed — whereas the stats block, which
indexes by outcome value, always reports the true death and survivor
counts. -/
theorem survival_counts_bar_vs_stats (ds : List Row)
    (hd : 0 < deathCount ds) (hs : 0 < survCount ds) :
    (firstBarOf (update_visualization ds "survival_counts").1 = some (deathCount ds) ↔
      survCount ds ≤ deathCount ds) ∧
    (survivalCountsOf (update_visualization ds "survival_counts").1).map (·.deaths) =
      some (deathCount ds) ∧
    (survivalCountsOf (update_visualization ds "survival_counts").1).map (·.survivors) =
      some (survCount ds) ∧
    (survivalCountsOf (update_visualization ds "survival_counts").1).map (·.barX) =
      some ["Died", "Survived"] := by
  rw [show (update_visualization ds "survival_counts").1 = survival_counts_branch ds
        from rfl]
  simp only [survival_counts_branch]
  rw [if_neg (by omega)]
  refine ⟨?_, rfl, rfl, rfl⟩
  simp only [firstBarOf, value_counts_survived]
  by_cases hlt : deathCount ds < survCount ds
  · rw [if_pos hlt]
    simp only [List.head?_cons, Option.some.injEq]
    omega
  · rw [if_neg hlt]
    simp only [List.head?_cons]
    exact iff_of_true trivial (by omega)

/-- C10 (witness): the bar/stats relation applied at the specification's
three-row scenario (two deaths, one survivor: the 'Died' bar is the
death count there). -/
theorem survival_counts_bar_vs_stats_witness :
    (firstBarOf (update_visualization specScenarioDs "survival_counts").1 =
        some (deathCount specScenarioDs) ↔
      survCount specScenarioDs ≤ deathCount specScenarioDs) ∧
    (survivalCountsOf (update_visualization specScenarioDs "survival_counts").1).map
        (·.deaths) = some (deathCount specScenarioDs) ∧
    (survivalCountsOf (update_visualization specScenarioDs "survival_counts").1).map
        (·.survivors) = some (survCount specScenarioDs) ∧
    (survivalCountsOf (update_visualization specScenarioDs "survival_counts").1).map
        (·.barX) = some ["Died", "Survived"] :=
  survival_counts_bar_vs_stats specScenarioDs (by decide) (by decide)
